import Mathlib

/-!
Shallow embedding of the `spinlock` Go package: a spin mutex (two source
variants of `mutex.go`) and a spin reader/writer lock (`rwmutex`).

The lock state is a single machine word.  We model the `int32` mutex state
as `Int` with explicit two's-complement wraparound and the `uint32`
RWMutex state as `Nat` with explicit reduction modulo `2^32`.  Each Go
method is embedded as a pure function from the pre-state to its result;
the spinning `Lock`/`RLock` loops are embedded by their loop bodies (one
CAS attempt, recording whether `runtime.Gosched()` is called on failure),
and a `panic` is recorded as a Boolean flag next to the post-state.
-/

namespace Spinlock

/-- Modulus of 32-bit machine arithmetic, `2^32`. -/
def uint32Size : Nat := 4294967296

/-- Two's-complement wraparound of an integer into the `int32` range,
modelling Go `int32` arithmetic such as `atomic.AddInt32`. -/
def wrap32 (z : Int) : Int := (z + 2147483648) % 4294967296 - 2147483648

/-- 32-bit unsigned addition, modelling `atomic.AddUint32`. -/
def add32 (a b : Nat) : Nat := (a + b) % uint32Size

/-- Bitwise complement of a 32-bit value, modelling Go `^x` on `uint32`. -/
def not32 (x : Nat) : Nat := 4294967295 - x

/-- Go constant `mutexUnlocked = 0` (`mutex.go`). -/
def mutexUnlocked : Int := 0

/-- Go constant `mutexLocked = 1` (`mutex.go`). -/
def mutexLocked : Int := 1

/-- Result of one iteration of a spinning lock loop: whether the CAS
acquired the lock, the resulting state word, and whether
`runtime.Gosched()` was called in this iteration. -/
structure SpinAttempt (α : Type) where
  acquired : Bool
  state : α
  yielded : Bool
  deriving DecidableEq

/-- Result of an unlock operation: the post-state of the word and whether
the method panics. -/
structure UnlockResult (α : Type) where
  state : α
  panics : Bool
  deriving DecidableEq

/-- One iteration of `Mutex.Lock` (first variant of `mutex.go`):
`CompareAndSwapInt32(&m.state, mutexUnlocked, mutexLocked)`, with
`runtime.Gosched()` on failure. -/
def Mutex.LockStep (s : Int) : SpinAttempt Int :=
  if s = mutexUnlocked then ⟨true, mutexLocked, false⟩ else ⟨false, s, true⟩

/-- Go `Mutex.TryLock` (first variant): a single
`CompareAndSwapInt32(&m.state, mutexUnlocked, mutexLocked)`, returning
whether it succeeded together with the resulting state. -/
def Mutex.TryLock (s : Int) : Bool × Int :=
  if s = mutexUnlocked then (true, mutexLocked) else (false, s)

/-- Go `Mutex.Unlock` (first variant):
`state := atomic.AddInt32(&m.state, -mutexLocked)` followed by
`if state != mutexUnlocked { panic(...) }`. -/
def Mutex.Unlock (s : Int) : UnlockResult Int :=
  let state := wrap32 (s + -mutexLocked)
  ⟨state, decide (state ≠ mutexUnlocked)⟩

/-- One iteration of `Mutex.Lock` in the second variant of `mutex.go`:
the same CAS but with an empty loop body on failure (no yield). -/
def Mutex2.LockStep (s : Int) : SpinAttempt Int :=
  if s = mutexUnlocked then ⟨true, mutexLocked, false⟩ else ⟨false, s, false⟩

/-- One iteration of `Mutex.LockYield` in the second variant of
`mutex.go`: the same CAS with `runtime.Gosched()` on failure. -/
def Mutex2.LockYieldStep (s : Int) : SpinAttempt Int :=
  if s = mutexUnlocked then ⟨true, mutexLocked, false⟩ else ⟨false, s, true⟩

/-- Go `Mutex.Unlock` in the second variant of `mutex.go`:
`state := atomic.AddInt32(&m, -mutexLocked)` followed by
`if (state + mutexLocked) != mutexUnlocked { panic(...) }`. -/
def Mutex2.Unlock (s : Int) : UnlockResult Int :=
  let state := wrap32 (s + -mutexLocked)
  ⟨state, decide (wrap32 (state + mutexLocked) ≠ mutexUnlocked)⟩

/-- Go constant `rwmutexUnlocked = 0`. -/
def rwmutexUnlocked : Nat := 0

/-- Go constant `rwmutexWrite = 1 << 0`: bit 0 flags write mode. -/
def rwmutexWrite : Nat := 1 <<< 0

/-- Go constant `rwmutexReadOffset = 1 << 1`: bits 1..31 count readers. -/
def rwmutexReadOffset : Nat := 1 <<< 1

/-- Go constant `rwmutexUnderflow = ^uint32(rwmutexWrite)`. -/
def rwmutexUnderflow : Nat := not32 rwmutexWrite

/-- Go constant `rwmutexWriterUnset = ^uint32(rwmutexWrite - 1)`. -/
def rwmutexWriterUnset : Nat := not32 (rwmutexWrite - 1)

/-- Go constant `rwmutexReaderDecrease = ^uint32(rwmutexReadOffset - 1)`. -/
def rwmutexReaderDecrease : Nat := not32 (rwmutexReadOffset - 1)

/-- The reader-count component of an RWMutex state word: the state
integer-divided by `rwmutexReadOffset` (bits 1..31). -/
def readerCount (s : Nat) : Nat := s / rwmutexReadOffset

/-- The write-flag component of an RWMutex state word: bit 0, i.e.
`state & rwmutexWrite`. -/
def writeBits (s : Nat) : Nat := s &&& rwmutexWrite

/-- The atomic increment performed by `RWMutex.RLock`:
`atomic.AddUint32(&rw.state, rwmutexReadOffset)`. -/
def RWMutex.RLockAdd (s : Nat) : Nat := add32 s rwmutexReadOffset

/-- Whether `RWMutex.RLock` returns immediately after its increment:
`state & rwmutexWrite == 0` on the incremented state. -/
def RWMutex.RLockImmediate (s : Nat) : Bool :=
  decide (RWMutex.RLockAdd s &&& rwmutexWrite = 0)

/-- Result of `RWMutex.TryRLock`: the returned Boolean and the
post-state of the word. -/
structure TryRLockResult where
  ok : Bool
  state : Nat
  deriving DecidableEq

/-- Go `RWMutex.TryRLock`: increment by `rwmutexReadOffset`; if the write
bit of the incremented state is clear, return `true`; otherwise undo the
increment with a second `atomic.AddUint32(&rw.state, rwmutexReaderDecrease)`
and return `false`. -/
def RWMutex.TryRLock (s : Nat) : TryRLockResult :=
  let state := add32 s rwmutexReadOffset
  if state &&& rwmutexWrite = 0 then ⟨true, state⟩
  else ⟨false, add32 state rwmutexReaderDecrease⟩

/-- Go `RWMutex.RUnlock`:
`state := atomic.AddUint32(&rw.state, rwmutexReaderDecrease)` followed by
`if state & rwmutexUnderflow == rwmutexUnderflow { panic(...) }`. -/
def RWMutex.RUnlock (s : Nat) : UnlockResult Nat :=
  let state := add32 s rwmutexReaderDecrease
  ⟨state, decide (state &&& rwmutexUnderflow = rwmutexUnderflow)⟩

/-- One iteration of `RWMutex.Lock`:
`CompareAndSwapUint32(&rw.state, rwmutexUnlocked, rwmutexWrite)`, with
`runtime.Gosched()` on failure. -/
def RWMutex.LockStep (s : Nat) : SpinAttempt Nat :=
  if s = rwmutexUnlocked then ⟨true, rwmutexWrite, false⟩ else ⟨false, s, true⟩

/-- Go `RWMutex.TryLock`: a single
`CompareAndSwapUint32(&rw.state, rwmutexUnlocked, rwmutexWrite)`. -/
def RWMutex.TryLock (s : Nat) : Bool × Nat :=
  if s = rwmutexUnlocked then (true, rwmutexWrite) else (false, s)

/-- Go `RWMutex.Unlock` (write unlock):
`state := atomic.AddUint32(&rw.state, rwmutexWriterUnset)` followed by
`if state & rwmutexWrite > 0 { panic(...) }`. -/
def RWMutex.Unlock (s : Nat) : UnlockResult Nat :=
  let state := add32 s rwmutexWriterUnset
  ⟨state, decide (state &&& rwmutexWrite > 0)⟩

/-- A reader-side operation on the RWMutex state word. -/
inductive ReaderOp where
  | rlock
  | runlock
  deriving DecidableEq

/-- Effect of one reader-side operation on the state word: `RLock` adds
`rwmutexReadOffset`, `RUnlock` adds `rwmutexReaderDecrease` (both mod `2^32`). -/
def readerStep (s : Nat) : ReaderOp → Nat
  | ReaderOp.rlock => add32 s rwmutexReadOffset
  | ReaderOp.runlock => add32 s rwmutexReaderDecrease

/-- The state word after running a sequence of reader-side operations. -/
def runReaderOps (s : Nat) (ops : List ReaderOp) : Nat := ops.foldl readerStep s

theorem rwmutexWrite_val : rwmutexWrite = 1 := rfl

theorem rwmutexReadOffset_val : rwmutexReadOffset = 2 := rfl

theorem rwmutexUnderflow_val : rwmutexUnderflow = 4294967294 := rfl

theorem rwmutexWriterUnset_val : rwmutexWriterUnset = 4294967295 := rfl

theorem rwmutexReaderDecrease_val : rwmutexReaderDecrease = 4294967294 := rfl

/-- Bit 0 as a mask is reduction mod 2. -/
theorem writeBits_eq_mod (s : Nat) : writeBits s = s % 2 := by
  have h : writeBits s = s &&& 1 := rfl
  rw [h, Nat.and_one_is_mod]

/-- Masking with `rwmutexUnderflow = 0xFFFFFFFE` clears bit 0 of a 32-bit
value and keeps bits 1..31. -/
theorem land_evenMask (n : Nat) (hn : n < 4294967296) :
    n &&& 4294967294 = 2 * (n / 2) := by
  have hmod : (n &&& 4294967294) % 2 = 0 := by
    rw [← Nat.and_one_is_mod, Nat.and_assoc]
    norm_num
  have hdiv : (n &&& 4294967294) / 2 = n / 2 := by
    rw [Nat.and_div_two]
    have h2 : (4294967294 : Nat) / 2 = 2 ^ 31 - 1 := by norm_num
    rw [h2, Nat.and_pow_two_sub_one_eq_mod]
    have h3 : (2 : Nat) ^ 31 = 2147483648 := by norm_num
    rw [h3]
    omega
  omega

/-- Unfolding of `RWMutex.RUnlock` to literal 32-bit arithmetic. -/
theorem RUnlock_eq (s : Nat) : RWMutex.RUnlock s =
    ⟨(s + 4294967294) % 4294967296,
      decide ((s + 4294967294) % 4294967296 &&& 4294967294 = 4294967294)⟩ := rfl

/-- Unfolding of `RWMutex.Unlock` to literal 32-bit arithmetic. -/
theorem WUnlock_eq (s : Nat) : RWMutex.Unlock s =
    ⟨(s + 4294967295) % 4294967296,
      decide ((s + 4294967295) % 4294967296 &&& 1 > 0)⟩ := rfl

/-- Unfolding of `RWMutex.TryRLock` to literal 32-bit arithmetic. -/
theorem TryRLock_eq (s : Nat) : RWMutex.TryRLock s =
    (if (s + 2) % 4294967296 &&& 1 = 0 then ⟨true, (s + 2) % 4294967296⟩
     else ⟨false, ((s + 2) % 4294967296 + 4294967294) % 4294967296⟩ : TryRLockResult) := rfl

/-- RUnlock panics exactly when the pre-state reader count is zero. -/
theorem RUnlock_panics_iff (s : Nat) (hs : s < 4294967296) :
    (RWMutex.RUnlock s).panics = true ↔ readerCount s = 0 := by
  have hmask := land_evenMask ((s + 4294967294) % 4294967296) (by omega)
  rw [RUnlock_eq]
  simp only [decide_eq_true_eq, hmask, readerCount, rwmutexReadOffset_val]
  omega

/-- Write Unlock panics exactly when the pre-state write flag is clear. -/
theorem WUnlock_panics_iff (s : Nat) :
    (RWMutex.Unlock s).panics = true ↔ writeBits s = 0 := by
  rw [WUnlock_eq, writeBits_eq_mod]
  simp only [decide_eq_true_eq, Nat.and_one_is_mod]
  omega

/-- Claim C1: the first variant of `Mutex.Unlock` decrements the state by
`mutexLocked` and panics exactly when the post-transition state is not
`mutexUnlocked` (so unlocking a locked mutex returns normally leaving the
state unlocked, and unlocking an unlocked mutex panics).  The second
variant of `Mutex.Unlock` instead tests the pre-decrement value against
`mutexUnlocked`, so its check is inverted: it panics when unlocking a
locked mutex and returns normally when unlocking an unlocked one.  This
theorem evaluates both variants at both legal states. -/
theorem mutex_unlock_variant_divergence :
    (Mutex.Unlock mutexLocked).panics = false ∧
    (Mutex.Unlock mutexLocked).state = mutexUnlocked ∧
    (Mutex.Unlock mutexUnlocked).panics = true ∧
    (Mutex2.Unlock mutexLocked).panics = true ∧
    (Mutex2.Unlock mutexLocked).state = mutexUnlocked ∧
    (Mutex2.Unlock mutexUnlocked).panics = false := by
  decide

/-- Claim C2: `RWMutex.RUnlock` adds `rwmutexReaderDecrease` to the state,
i.e. subtracts `rwmutexReadOffset` modulo `2^32`, and panics exactly when
the decrement underflows the reader count (the pre-state reader count was
zero); when at least one reader holds the lock it returns normally,
decrements the reader count by one and leaves the write flag unchanged. -/
theorem rUnlock_decrement_and_underflow (s : Nat) (hs : s < uint32Size) :
    (RWMutex.RUnlock s).state = add32 s rwmutexReaderDecrease ∧
    ((RWMutex.RUnlock s).panics = true ↔ readerCount s = 0) ∧
    (1 ≤ readerCount s →
      (RWMutex.RUnlock s).panics = false ∧
      readerCount (RWMutex.RUnlock s).state = readerCount s - 1 ∧
      writeBits (RWMutex.RUnlock s).state = writeBits s) := by
  have hs' : s < 4294967296 := hs
  refine ⟨rfl, RUnlock_panics_iff s hs', fun h1 => ?_⟩
  have hmask := land_evenMask ((s + 4294967294) % 4294967296) (by omega)
  rw [RUnlock_eq] at *
  simp only [readerCount, rwmutexReadOffset_val, writeBits_eq_mod,
    decide_eq_false_iff_not, hmask] at *
  refine ⟨by omega, by omega, by omega⟩

/-- Witness for claim C2 at the state with two readers and no writer. -/
theorem rUnlock_decrement_and_underflow_witness :
    (4 : Nat) < uint32Size ∧
    ((RWMutex.RUnlock 4).state = add32 4 rwmutexReaderDecrease ∧
      ((RWMutex.RUnlock 4).panics = true ↔ readerCount 4 = 0) ∧
      (1 ≤ readerCount 4 →
        (RWMutex.RUnlock 4).panics = false ∧
        readerCount (RWMutex.RUnlock 4).state = readerCount 4 - 1 ∧
        writeBits (RWMutex.RUnlock 4).state = writeBits 4)) :=
  ⟨by decide, rUnlock_decrement_and_underflow 4 (by decide)⟩

/-- Claim C3: `RWMutex.Unlock` (write unlock) panics exactly when the
write flag was clear before the call; when the write flag was set it
returns normally, clears exactly the write bit (state becomes
`s - rwmutexWrite`, reader count unchanged, write flag now clear), and in
particular from the write-locked state `rwmutexWrite` it leaves the lock
fully unlocked. -/
theorem wUnlock_clears_flag (s : Nat) (hs : s < uint32Size) :
    ((RWMutex.Unlock s).panics = true ↔ writeBits s = 0) ∧
    (writeBits s = rwmutexWrite →
      (RWMutex.Unlock s).panics = false ∧
      (RWMutex.Unlock s).state = s - rwmutexWrite ∧
      readerCount (RWMutex.Unlock s).state = readerCount s ∧
      writeBits (RWMutex.Unlock s).state = 0) ∧
    ((RWMutex.Unlock rwmutexWrite).panics = false ∧
      (RWMutex.Unlock rwmutexWrite).state = rwmutexUnlocked) := by
  have hs' : s < 4294967296 := hs
  refine ⟨WUnlock_panics_iff s, fun h1 => ?_, by decide⟩
  rw [WUnlock_eq] at *
  simp only [readerCount, rwmutexReadOffset_val, rwmutexWrite_val, writeBits_eq_mod,
    decide_eq_false_iff_not, Nat.and_one_is_mod] at *
  refine ⟨by omega, by omega, by omega, by omega⟩

/-- Witness for claim C3 at the write-locked state with one transient
reader claim (state 3: write flag set, reader count 1). -/
theorem wUnlock_clears_flag_witness :
    (3 : Nat) < uint32Size ∧
    (((RWMutex.Unlock 3).panics = true ↔ writeBits 3 = 0) ∧
      (writeBits 3 = rwmutexWrite →
        (RWMutex.Unlock 3).panics = false ∧
        (RWMutex.Unlock 3).state = 3 - rwmutexWrite ∧
        readerCount (RWMutex.Unlock 3).state = readerCount 3 ∧
        writeBits (RWMutex.Unlock 3).state = 0) ∧
      ((RWMutex.Unlock rwmutexWrite).panics = false ∧
        (RWMutex.Unlock rwmutexWrite).state = rwmutexUnlocked)) :=
  ⟨by decide, wUnlock_clears_flag 3 (by decide)⟩

/-- Claim C4: the write-side CAS of `RWMutex.Lock` and `RWMutex.TryLock`
succeeds exactly when the state is fully unlocked (zero readers and no
writer), in which case the new state is `rwmutexWrite`; on failure the
state is unchanged, so `TryLock` returns false with no side effect
whenever any reader holds the lock, and `Lock`'s loop body performs the
same CAS. -/
theorem write_cas_only_from_zero (s : Nat) (hs : s < uint32Size) :
    ((RWMutex.TryLock s).1 = true ↔ readerCount s = 0 ∧ writeBits s = 0) ∧
    ((RWMutex.TryLock s).1 = true → (RWMutex.TryLock s).2 = rwmutexWrite) ∧
    ((RWMutex.TryLock s).1 = false → (RWMutex.TryLock s).2 = s) ∧
    (1 ≤ readerCount s → (RWMutex.TryLock s).1 = false) ∧
    (RWMutex.LockStep s).acquired = (RWMutex.TryLock s).1 ∧
    (RWMutex.LockStep s).state = (RWMutex.TryLock s).2 := by
  by_cases h : s = rwmutexUnlocked
  · subst h; decide
  · have h0 : s ≠ 0 := h
    simp only [RWMutex.TryLock, RWMutex.LockStep, if_neg h]
    simp [readerCount, rwmutexReadOffset_val, writeBits_eq_mod]
    omega

/-- Witness for claim C4 at the state with one reader. -/
theorem write_cas_only_from_zero_witness :
    (2 : Nat) < uint32Size ∧
    (((RWMutex.TryLock 2).1 = true ↔ readerCount 2 = 0 ∧ writeBits 2 = 0) ∧
      ((RWMutex.TryLock 2).1 = true → (RWMutex.TryLock 2).2 = rwmutexWrite) ∧
      ((RWMutex.TryLock 2).1 = false → (RWMutex.TryLock 2).2 = 2) ∧
      (1 ≤ readerCount 2 → (RWMutex.TryLock 2).1 = false) ∧
      (RWMutex.LockStep 2).acquired = (RWMutex.TryLock 2).1 ∧
      (RWMutex.LockStep 2).state = (RWMutex.TryLock 2).2) :=
  ⟨by decide, write_cas_only_from_zero 2 (by decide)⟩

/-- Claim C5: `RWMutex.TryRLock` increments the reader count and returns
true exactly when the write flag of the incremented state is clear (the
success state is the incremented state); it returns false exactly when the
write flag was set, in which case the second decrement restores the state
word to its pre-call value. -/
theorem tryRLock_frame (s : Nat) (hs : s < uint32Size) :
    ((RWMutex.TryRLock s).ok = true ↔ writeBits (add32 s rwmutexReadOffset) = 0) ∧
    ((RWMutex.TryRLock s).ok = false ↔ writeBits s = rwmutexWrite) ∧
    ((RWMutex.TryRLock s).ok = true →
      (RWMutex.TryRLock s).state = add32 s rwmutexReadOffset) ∧
    ((RWMutex.TryRLock s).ok = false → (RWMutex.TryRLock s).state = s) := by
  have hs' : s < 4294967296 := hs
  have hadd : add32 s rwmutexReadOffset = (s + 2) % 4294967296 := rfl
  rw [TryRLock_eq, hadd]
  simp only [Nat.and_one_is_mod, writeBits_eq_mod, rwmutexWrite_val]
  by_cases h : (s + 2) % 4294967296 % 2 = 0
  · rw [if_pos h]
    refine ⟨by simpa using h, ?_, fun _ => rfl, ?_⟩
    · simp only [TryRLockResult.ok]
      simp
      omega
    · intro hc; simp at hc
  · rw [if_neg h]
    refine ⟨by simpa using h, ?_, ?_, fun _ => ?_⟩
    · simp only [TryRLockResult.ok]
      simp
      omega
    · intro hc; simp at hc
    · simp only [TryRLockResult.state]
      omega

/-- Witness for claim C5 at the write-locked state. -/
theorem tryRLock_frame_witness :
    (1 : Nat) < uint32Size ∧
    (((RWMutex.TryRLock 1).ok = true ↔ writeBits (add32 1 rwmutexReadOffset) = 0) ∧
      ((RWMutex.TryRLock 1).ok = false ↔ writeBits 1 = rwmutexWrite) ∧
      ((RWMutex.TryRLock 1).ok = true →
        (RWMutex.TryRLock 1).state = add32 1 rwmutexReadOffset) ∧
      ((RWMutex.TryRLock 1).ok = false → (RWMutex.TryRLock 1).state = 1)) :=
  ⟨by decide, tryRLock_frame 1 (by decide)⟩

/-- Claim C6 counterexample: in the second variant of `mutex.go`, the loop
body of `Mutex.Lock` at a locked state fails the CAS and does not call
`runtime.Gosched()`, contradicting the claim that `Lock` yields on every
failed attempt. -/
theorem mutex2_lock_step_no_yield :
    (Mutex2.LockStep mutexLocked).acquired = false ∧
    (Mutex2.LockStep mutexLocked).yielded = false := by
  decide

/-- Claim C6 (amended): every `Mutex` lock loop body performs the CAS from
`mutexUnlocked` to `mutexLocked`, succeeding exactly on an unlocked mutex
and leaving it locked, and leaving the state unchanged on failure; the
first variant's `Lock` and the second variant's `LockYield` yield on every
failed attempt, while the second variant's `Lock` retries without
yielding. -/
theorem mutex_lock_cas (s : Int) :
    ((Mutex.LockStep s).acquired = true ↔ s = mutexUnlocked) ∧
    ((Mutex.LockStep s).acquired = true → (Mutex.LockStep s).state = mutexLocked) ∧
    ((Mutex.LockStep s).acquired = false →
      (Mutex.LockStep s).state = s ∧ (Mutex.LockStep s).yielded = true) ∧
    Mutex2.LockYieldStep s = Mutex.LockStep s ∧
    (Mutex2.LockStep s).acquired = (Mutex.LockStep s).acquired ∧
    (Mutex2.LockStep s).state = (Mutex.LockStep s).state ∧
    ((Mutex2.LockStep s).acquired = false → (Mutex2.LockStep s).yielded = false) := by
  by_cases h : s = mutexUnlocked <;>
    simp [Mutex.LockStep, Mutex2.LockStep, Mutex2.LockYieldStep, h]

/-- Witness for claim C6 at the locked state. -/
theorem mutex_lock_cas_witness :
    ((Mutex.LockStep mutexLocked).acquired = true ↔ mutexLocked = mutexUnlocked) ∧
    ((Mutex.LockStep mutexLocked).acquired = true →
      (Mutex.LockStep mutexLocked).state = mutexLocked) ∧
    ((Mutex.LockStep mutexLocked).acquired = false →
      (Mutex.LockStep mutexLocked).state = mutexLocked ∧
      (Mutex.LockStep mutexLocked).yielded = true) ∧
    Mutex2.LockYieldStep mutexLocked = Mutex.LockStep mutexLocked ∧
    (Mutex2.LockStep mutexLocked).acquired = (Mutex.LockStep mutexLocked).acquired ∧
    (Mutex2.LockStep mutexLocked).state = (Mutex.LockStep mutexLocked).state ∧
    ((Mutex2.LockStep mutexLocked).acquired = false →
      (Mutex2.LockStep mutexLocked).yielded = false) :=
  mutex_lock_cas mutexLocked

/-- Running a sequence of reader-side operations adds `rwmutexReadOffset`
per `RLock` and `rwmutexReaderDecrease` per `RUnlock`, modulo `2^32`. -/
theorem runReaderOps_count (ops : List ReaderOp) : ∀ s : Nat, s < 4294967296 →
    runReaderOps s ops =
      (s + rwmutexReadOffset * ops.count ReaderOp.rlock +
        rwmutexReaderDecrease * ops.count ReaderOp.runlock) % 4294967296 := by
  induction ops with
  | nil =>
    intro s hs
    simp only [runReaderOps, List.foldl_nil, List.count_nil, Nat.mul_zero, Nat.add_zero]
    omega
  | cons op ops ih =>
    intro s hs
    have hstep : runReaderOps s (op :: ops) = runReaderOps (readerStep s op) ops := rfl
    have hlt : readerStep s op < 4294967296 := by
      cases op <;> simp only [readerStep, add32, uint32Size] <;> omega
    rw [hstep, ih (readerStep s op) hlt]
    cases op with
    | rlock =>
      rw [List.count_cons_self, List.count_cons_of_ne (by decide)]
      simp only [readerStep, add32, uint32Size, rwmutexReadOffset_val,
        rwmutexReaderDecrease_val]
      omega
    | runlock =>
      rw [List.count_cons_of_ne (by decide), List.count_cons_self]
      simp only [readerStep, add32, uint32Size, rwmutexReadOffset_val,
        rwmutexReaderDecrease_val]
      omega

/-- Claim C7: starting from the fully-unlocked state, any interleaving of
`RLock` increments and `RUnlock` decrements containing equally many of
each returns the state word to exactly `rwmutexUnlocked = 0`. -/
theorem reader_roundtrip (ops : List ReaderOp) (n : Nat)
    (hl : ops.count ReaderOp.rlock = n) (hu : ops.count ReaderOp.runlock = n) :
    runReaderOps rwmutexUnlocked ops = rwmutexUnlocked := by
  have h := runReaderOps_count ops 0 (by omega)
  have h0 : runReaderOps rwmutexUnlocked ops = runReaderOps 0 ops := rfl
  rw [h0, h, hl, hu, rwmutexReadOffset_val, rwmutexReaderDecrease_val]
  show (0 + 2 * n + 4294967294 * n) % 4294967296 = 0
  omega

/-- Witness for claim C7: two interleaved `RLock`/`RUnlock` pairs. -/
theorem reader_roundtrip_witness :
    ([ReaderOp.rlock, ReaderOp.runlock, ReaderOp.rlock,
        ReaderOp.runlock].count ReaderOp.rlock = 2 ∧
      [ReaderOp.rlock, ReaderOp.runlock, ReaderOp.rlock,
        ReaderOp.runlock].count ReaderOp.runlock = 2) ∧
    runReaderOps rwmutexUnlocked
      [ReaderOp.rlock, ReaderOp.runlock, ReaderOp.rlock, ReaderOp.runlock] =
      rwmutexUnlocked :=
  ⟨⟨by decide, by decide⟩,
    reader_roundtrip [ReaderOp.rlock, ReaderOp.runlock, ReaderOp.rlock, ReaderOp.runlock]
      2 (by decide) (by decide)⟩

/-- Claim C8: the zero-initialized state of each primitive is a legal
unlocked lock: on a zero `Mutex` the `TryLock` CAS succeeds and locks it,
and on a zero `RWMutex` both the write-side `TryLock` and `TryRLock`
succeed. -/
theorem zero_value_is_unlocked :
    (Mutex.TryLock mutexUnlocked).1 = true ∧
    (Mutex.TryLock mutexUnlocked).2 = mutexLocked ∧
    (RWMutex.TryLock rwmutexUnlocked).1 = true ∧
    (RWMutex.TryLock rwmutexUnlocked).2 = rwmutexWrite ∧
    (RWMutex.TryRLock rwmutexUnlocked).ok = true ∧
    (RWMutex.TryRLock rwmutexUnlocked).state = rwmutexReadOffset := by
  decide

/-- Claim C9: on every panic path of the first variant's `Mutex.Unlock`,
of `RWMutex.RUnlock` and of `RWMutex.Unlock`, the atomic update is applied
before the check and is never rolled back: the post-state always equals
the decremented word, `Mutex.Unlock` of an unlocked mutex panics leaving
the state at `mutexUnlocked - mutexLocked = -1`, `RUnlock` with a zero
reader count panics leaving the underflowed word, and write `Unlock` with
the write flag clear panics leaving a word whose write flag reads as set. -/
theorem panic_paths_keep_update (z : Int) (s : Nat) (hs : s < uint32Size) :
    (Mutex.Unlock z).state = wrap32 (z - mutexLocked) ∧
    ((Mutex.Unlock mutexUnlocked).panics = true ∧
      (Mutex.Unlock mutexUnlocked).state = mutexUnlocked - mutexLocked) ∧
    (RWMutex.RUnlock s).state = add32 s rwmutexReaderDecrease ∧
    (readerCount s = 0 → (RWMutex.RUnlock s).panics = true) ∧
    (RWMutex.Unlock s).state = add32 s rwmutexWriterUnset ∧
    (writeBits s = 0 →
      (RWMutex.Unlock s).panics = true ∧
      writeBits (RWMutex.Unlock s).state = rwmutexWrite) := by
  have hs' : s < 4294967296 := hs
  refine ⟨rfl, by decide, rfl, fun h0 => (RUnlock_panics_iff s hs').mpr h0, rfl, fun hw => ?_⟩
  refine ⟨(WUnlock_panics_iff s).mpr hw, ?_⟩
  rw [writeBits_eq_mod] at hw
  rw [WUnlock_eq]
  simp only [writeBits_eq_mod, rwmutexWrite_val]
  omega

/-- Witness for claim C9 at the fully-unlocked states. -/
theorem panic_paths_keep_update_witness :
    (0 : Nat) < uint32Size ∧
    ((Mutex.Unlock mutexUnlocked).state = wrap32 (mutexUnlocked - mutexLocked) ∧
      ((Mutex.Unlock mutexUnlocked).panics = true ∧
        (Mutex.Unlock mutexUnlocked).state = mutexUnlocked - mutexLocked) ∧
      (RWMutex.RUnlock 0).state = add32 0 rwmutexReaderDecrease ∧
      (readerCount 0 = 0 → (RWMutex.RUnlock 0).panics = true) ∧
      (RWMutex.Unlock 0).state = add32 0 rwmutexWriterUnset ∧
      (writeBits 0 = 0 →
        (RWMutex.Unlock 0).panics = true ∧
        writeBits (RWMutex.Unlock 0).state = rwmutexWrite)) :=
  ⟨by decide, panic_paths_keep_update mutexUnlocked 0 (by decide)⟩

/-- Claim C10: `RWMutex.RUnlock` called with a zero reader count panics
regardless of the write flag; in particular it panics from the
write-locked state `rwmutexWrite` just as from the fully-unlocked state. -/
theorem rUnlock_underflow_regardless_of_writer (s : Nat) (hs : s < uint32Size)
    (h0 : readerCount s = 0) : (RWMutex.RUnlock s).panics = true :=
  (RUnlock_panics_iff s hs).mpr h0

/-- Witness for claim C10 at the write-locked state. -/
theorem rUnlock_underflow_regardless_of_writer_witness :
    (rwmutexWrite < uint32Size ∧ readerCount rwmutexWrite = 0) ∧
    (RWMutex.RUnlock rwmutexWrite).panics = true :=
  ⟨⟨by decide, by decide⟩,
    rUnlock_underflow_regardless_of_writer rwmutexWrite (by decide) (by decide)⟩

end Spinlock
